import Mathlib

/-!
Shallow embedding of the plan/execute/report engine of
`src/langchain_demo/02_advanced/02_plan_execute_agent.py`.

Modelling conventions:
* Python `str` is `String`; Python `int` is `Int`; the Pydantic `float`
  field `success_rate` is an exact rational `ℚ` (no claim depends on
  binary-float rounding, only on the arithmetic identities and bounds).
* Python `Dict[str, str]` values are association lists with the usual
  first-match lookup; Python's insertion-ordered `dict` built by a
  comprehension is `buildTools` below (later duplicate keys overwrite the
  stored value in place, as CPython does).
* A tool is a function `List (String × String) → Except String String`:
  `Except.ok s` is the string the Python function returns (including the
  error-message strings it returns for bad domain input), `Except.error e`
  is a raised exception caught by `TravelExecutor.execute_step`
  (LangChain argument-validation errors for missing parameters, and the
  `ZeroDivisionError` in `calculate_budget_breakdown`).
* The single impure call `datetime.now()` in `get_weather_forecast` only
  influences the formatted dates inside the forecast text, so the date
  renderer is threaded through as a parameter `dstr : Nat → String`
  standing for `(base_date + timedelta(days=i)).strftime per the source`.
* Python `int(s)` is `pyInt?` (sign + ASCII digits after stripping
  whitespace; the exotic forms Python also accepts, such as underscores
  or non-ASCII digits, never occur in the claims).
-/

/-- Decimal digits to a number (`none` on empty or non-digit input). -/
def digitsToNat? (l : List Char) : Option Nat :=
  if l.isEmpty then none
  else if l.all Char.isDigit then
    some (l.foldl (fun acc c => acc * 10 + (c.toNat - 48)) 0)
  else none

/-- Python `int(s)`: strip surrounding whitespace, optional sign, decimal
digits; `none` models the `ValueError` branch. (Defined over the char
list so closed instances reduce in the kernel.) -/
def pyInt? (s : String) : Option Int :=
  let t := s.data.dropWhile Char.isWhitespace
  let t := (t.reverse.dropWhile Char.isWhitespace).reverse
  match t with
  | [] => none
  | c :: rest =>
    if c = '-' then (digitsToNat? rest).map (fun n => -(n : Int))
    else if c = '+' then (digitsToNat? rest).map (fun n => (n : Int))
    else (digitsToNat? t).map (fun n => (n : Int))

/-- Python list slicing `l[:n]` for an `Int` bound `n` (a negative bound
drops that many elements from the end). -/
def pyTake (n : Int) (l : List α) : List α :=
  if 0 ≤ n then l.take n.toNat else l.take (l.length - (-n).toNat)

/-- Render a rating stored in tenths the way Python prints the
one-decimal float literal from the source (`48 ↦ "4.8"`). -/
def fmtTenths (n : Nat) : String :=
  toString (n / 10) ++ "." ++ toString (n % 10)

/-- Round half to even on an exact rational, modelling Python's `round`
as used by `format(x, '.kf')` (the source's values are exact enough that
binary-float noise never matters for any claim). -/
def rhe (q : ℚ) : Int :=
  let f := ⌊q⌋
  let frac := q - (f : ℚ)
  if frac < 1 / 2 then f
  else if 1 / 2 < frac then f + 1
  else if f % 2 = 0 then f else f + 1

/-- Python `f"{q:.1f}"` over an exact rational. -/
def fmtQ1 (q : ℚ) : String :=
  let n := rhe (q * 10)
  let sgn := if n < 0 then "-" else ""
  sgn ++ toString (n.natAbs / 10) ++ "." ++ toString (n.natAbs % 10)

/-- Python `f"{q:.0f}"` over an exact rational. -/
def fmtQ0 (q : ℚ) : String :=
  toString (rhe q)

/-- Minimum of a list of `Int`s (Python `min(...)`; only applied to the
non-empty hotel lists of the source). -/
def listMinInt : List Int → Int
  | [] => 0
  | x :: xs => xs.foldl min x

/-- Insert into an insertion-ordered string-keyed map the way a CPython
`dict` does: an existing key keeps its position and gets the new value,
a new key is appended. -/
def dictInsert (m : List (String × α)) (k : String) (v : α) : List (String × α) :=
  match m.lookup k with
  | some _ => m.map (fun p => if p.1 = k then (k, v) else p)
  | none => m ++ [(k, v)]

/-- The dict comprehension `{tool.name: tool for tool in available_tools}`
from `TravelExecutor.__init__`. -/
def buildTools (ts : List (String × α)) : List (String × α) :=
  ts.foldl (fun m t => dictInsert m t.1 t.2) []

/-! ## Data model (the Pydantic classes) -/

/-- `TravelStep` from the source. -/
structure TravelStep where
  step_name : String
  tool_name : String
  parameters : List (String × String)
  description : String
deriving DecidableEq, Repr

/-- `TravelPlan` from the source. -/
structure TravelPlan where
  destination : String
  duration : Int
  budget : Int
  preferences : List String
  steps : List TravelStep
deriving DecidableEq, Repr

/-- `StepResult` from the source. -/
structure StepResult where
  step_name : String
  tool_name : String
  success : Bool
  result : String
  error_message : Option String
deriving DecidableEq, Repr

/-- `ExecutionReport` from the source (`success_rate` as exact `ℚ`). -/
structure ExecutionReport where
  plan : TravelPlan
  results : List StepResult
  success_count : Nat
  total_count : Nat
  success_rate : ℚ
deriving DecidableEq, Repr

/-- A registered tool: parameter map in, returned string or raised
exception message out. -/
def ToolFn : Type := List (String × String) → Except String String

/-! ## Tool data tables (verbatim from the source) -/

def weather_patterns : List (String × List String) :=
  [("北京", ["晴天", "多云", "小雨", "阴天", "晴天", "多云", "晴天"]),
   ("上海", ["多云", "小雨", "阴天", "晴天", "多云", "小雨", "晴天"]),
   ("成都", ["阴天", "小雨", "多云", "小雨", "阴天", "晴天", "多云"]),
   ("广州", ["晴天", "雷阵雨", "晴天", "多云", "雷阵雨", "晴天", "多云"]),
   ("杭州", ["多云", "晴天", "小雨", "晴天", "多云", "晴天", "阴天"]),
   ("深圳", ["晴天", "雷阵雨", "多云", "晴天", "雷阵雨", "晴天", "多云"])]

def temperatures : List (String × (Int × Int)) :=
  [("北京", (18, 25)), ("上海", (22, 28)), ("成都", (20, 26)),
   ("广州", (26, 32)), ("杭州", (21, 27)), ("深圳", (25, 31))]

/-! ## get_weather_forecast -/

/-- One `forecast +=` line of the loop in `get_weather_forecast`. -/
def weatherLine (dstr : Nat → String) (pats : List String) (temps : Int × Int) (i : Nat) : String :=
  let weather := pats.getD (i % pats.length) ""
  let temp := toString (temps.1 + i) ++ "-" ++ toString (temps.2 + i) ++ "℃"
  let day_name := if i = 0 then "今天" else toString (i + 1) ++ "天后"
  "  " ++ day_name ++ "(" ++ dstr i ++ "): " ++ weather ++ ", " ++ temp ++ "\n"

/-- The body of `get_weather_forecast` after argument binding. -/
def weatherBody (dstr : Nat → String) (city days : String) : String :=
  match pyInt? days with
  | none => "错误：天数\x27" ++ days ++ "\x27不是有效数字"
  | some days_int =>
    match weather_patterns.lookup city with
    | none =>
        "抱歉，暂无" ++ city ++ "的天气数据。支持城市：" ++
          String.intercalate ", " (weather_patterns.map (fun p => p.1))
    | some pats =>
        let temps := (temperatures.lookup city).getD (0, 0)
        let n : Nat := if days_int ≤ 0 then 0 else (min days_int 7).toNat
        let header := "📅 " ++ city ++ "未来" ++ toString days_int ++ "天天气预报：\n"
        let forecast := (List.range n).foldl (fun acc i => acc ++ weatherLine dstr pats temps i) header
        forecast ++ "\n💡 提示：以上为模拟数据"

/-- `get_weather_forecast` as invoked through LangChain: missing declared
arguments raise a validation error, otherwise the body runs. -/
def get_weather_forecast (dstr : Nat → String) (params : List (String × String)) :
    Except String String :=
  match params.lookup "city", params.lookup "days" with
  | some city, some days => Except.ok (weatherBody dstr city days)
  | _, _ => Except.error "1 validation error for get_weather_forecast"

/-! ## search_attractions_by_preference -/

/-- An entry of `attractions_db` (`rating` stored in tenths of the
source's one-decimal float, e.g. `4.8 ↦ 48`). -/
structure Attraction where
  name : String
  time : String
  price : Int
  rating : Nat
  description : String
deriving DecidableEq, Repr

def attractions_db : List (String × List (String × List Attraction)) :=
  [("北京",
    [("历史文化",
      [⟨"故宫博物院", "半天", 60, 48, "明清皇宫，世界文化遗产"⟩,
       ⟨"长城（八达岭）", "一天", 40, 47, "万里长城精华段"⟩,
       ⟨"天坛公园", "3小时", 15, 46, "明清皇帝祭天之地"⟩,
       ⟨"颐和园", "半天", 30, 45, "清代皇家园林"⟩,
       ⟨"雍和宫", "2小时", 25, 44, "藏传佛教寺院"⟩]),
     ("现代都市",
      [⟨"三里屯", "3小时", 0, 43, "时尚购物区"⟩,
       ⟨"798艺术区", "4小时", 0, 44, "当代艺术中心"⟩,
       ⟨"奥林匹克公园", "半天", 0, 42, "鸟巢水立方"⟩]),
     ("自然风光",
      [⟨"香山公园", "半天", 10, 43, "赏红叶胜地"⟩,
       ⟨"北海公园", "3小时", 10, 42, "皇家园林湖景"⟩])]),
   ("上海",
    [("历史文化",
      [⟨"外滩", "2小时", 0, 48, "万国建筑博览群"⟩,
       ⟨"豫园", "3小时", 40, 45, "江南古典园林"⟩,
       ⟨"田子坊", "3小时", 0, 44, "石库门文化街区"⟩]),
     ("现代都市",
      [⟨"东方明珠塔", "2小时", 220, 43, "上海地标建筑"⟩,
       ⟨"陆家嘴", "半天", 0, 46, "金融中心天际线"⟩,
       ⟨"新天地", "3小时", 0, 44, "时尚休闲区"⟩])]),
   ("成都",
    [("历史文化",
      [⟨"武侯祠", "3小时", 60, 45, "三国文化圣地"⟩,
       ⟨"锦里古街", "3小时", 0, 44, "川西民俗文化街"⟩,
       ⟨"杜甫草堂", "2小时", 60, 43, "诗圣故居"⟩]),
     ("自然风光",
      [⟨"大熊猫繁育基地", "半天", 55, 48, "国宝大熊猫"⟩,
       ⟨"青城山", "一天", 90, 46, "道教名山"⟩]),
     ("现代都市",
      [⟨"宽窄巷子", "3小时", 0, 45, "成都慢生活体验"⟩,
       ⟨"春熙路", "3小时", 0, 42, "购物美食中心"⟩])])]

/-- Python's stable descending insertion (used to model
`list.sort(key=..., reverse=True)`; order is irrelevant to every claim,
only stability and the multiset of elements matter). -/
def insertDescBy (key : α → Nat) (x : α) : List α → List α
  | [] => [x]
  | y :: ys => if key x ≤ key y then y :: insertDescBy key x ys else x :: y :: ys

/-- Stable sort, descending on `key`. -/
def pySortDescBy (key : α → Nat) (l : List α) : List α :=
  l.foldl (fun acc x => insertDescBy key x acc) []

/-- One `result +=` line of the recommendation loop (1-based index from
`enumerate(..., 1)`). -/
def attractionLine (p : Nat × Attraction) : String :=
  toString p.1 ++ ". " ++ p.2.name ++ " ⭐" ++ fmtTenths p.2.rating ++ "\n" ++
    "   游览时间：" ++ p.2.time ++ " | 门票：¥" ++ toString p.2.price ++ "\n" ++
    "   特色：" ++ p.2.description ++ "\n\n"

/-- The body of `search_attractions_by_preference` after argument binding. -/
def attractionsBody (city preferences duration : String) : String :=
  match pyInt? duration with
  | none => "错误：天数\x27" ++ duration ++ "\x27不是有效数字"
  | some duration_int =>
    match attractions_db.lookup city with
    | none => "抱歉，暂无" ++ city ++ "的景点数据"
    | some citydb =>
      let pref_list := (preferences.splitOn ",").map String.trim
      let matched_attractions :=
        pref_list.foldl (fun acc pref =>
          match citydb.lookup pref with
          | some l => acc ++ l
          | none => acc) []
      if matched_attractions.isEmpty then
        "未找到匹配\x27" ++ preferences ++ "\x27的景点。可选偏好：" ++
          String.intercalate ", " (citydb.map (fun p => p.1))
      else
        let sorted := pySortDescBy (fun a => a.rating) matched_attractions
        let recommended_count : Int := min (sorted.length : Int) (duration_int * 3)
        let header := "🎯 " ++ city ++ " " ++ toString duration_int ++ "天行程景点推荐（偏好：" ++
          preferences ++ "）：\n\n"
        let st := (List.enumFrom 1 (pyTake recommended_count sorted)).foldl
          (fun s x => (s.1 ++ attractionLine x, s.2 + x.2.price)) (header, (0 : Int))
        st.1 ++ ("💰 预估门票总费用：¥" ++ toString st.2 ++ "\n") ++
          "💡 提示：以上为模拟数据，实际请以官方信息为准"

/-- `search_attractions_by_preference` as invoked through LangChain. -/
def search_attractions_by_preference (params : List (String × String)) :
    Except String String :=
  match params.lookup "city", params.lookup "preferences", params.lookup "duration" with
  | some city, some preferences, some duration =>
      Except.ok (attractionsBody city preferences duration)
  | _, _, _ => Except.error "1 validation error for search_attractions_by_preference"

/-! ## search_accommodation -/

structure Hotel where
  name : String
  type : String
  price : Int
  rating : Nat
  location : String
  features : List String
deriving DecidableEq, Repr

def hotels_db : List (String × List Hotel) :=
  [("北京",
    [⟨"北京饭店", "五星酒店", 800, 47, "王府井", ["历史悠久", "地理位置佳"]⟩,
     ⟨"希尔顿酒店", "国际连锁", 600, 46, "朝阳区", ["设施完善", "服务优质"]⟩,
     ⟨"如家酒店", "经济连锁", 200, 42, "各区域", ["性价比高", "连锁品牌"]⟩,
     ⟨"7天酒店", "经济连锁", 150, 40, "各区域", ["价格实惠", "基础设施"]⟩,
     ⟨"青年旅社", "青旅", 80, 38, "市中心", ["超低价格", "适合背包客"]⟩]),
   ("上海",
    [⟨"和平饭店", "历史酒店", 900, 48, "外滩", ["历史建筑", "外滩景观"]⟩,
     ⟨"万豪酒店", "国际连锁", 700, 46, "浦东", ["豪华设施", "商务便利"]⟩,
     ⟨"汉庭酒店", "中档连锁", 250, 43, "各区域", ["干净舒适", "性价比好"]⟩,
     ⟨"锦江之星", "经济连锁", 180, 41, "各区域", ["连锁品牌", "标准服务"]⟩]),
   ("成都",
    [⟨"香格里拉酒店", "五星酒店", 650, 47, "市中心", ["奢华享受", "优质服务"]⟩,
     ⟨"全季酒店", "中档连锁", 280, 44, "各区域", ["设计感强", "舒适环境"]⟩,
     ⟨"速8酒店", "经济连锁", 160, 40, "各区域", ["快捷便利", "基础设施"]⟩])]

/-- One `result +=` line of the hotel loop. -/
def hotelLine (duration_int : Int) (p : Nat × Hotel) : String :=
  let total_cost := p.2.price * duration_int
  toString p.1 ++ ". " ++ p.2.name ++ " (" ++ p.2.type ++ ") ⭐" ++ fmtTenths p.2.rating ++ "\n" ++
    "   价格：¥" ++ toString p.2.price ++ "/晚 × " ++ toString duration_int ++ "晚 = ¥" ++
    toString total_cost ++ "\n" ++
    "   位置：" ++ p.2.location ++ "\n" ++
    "   特色：" ++ String.intercalate ", " p.2.features ++ "\n\n"

/-- The body of `search_accommodation` after argument binding. -/
def accommodationBody (city budget_per_night duration : String) : String :=
  match pyInt? budget_per_night, pyInt? duration with
  | some budget_int, some duration_int =>
    (match hotels_db.lookup city with
     | none => "抱歉，暂无" ++ city ++ "的住宿数据"
     | some hotels =>
       let suitable_hotels := hotels.filter (fun h => h.price ≤ budget_int)
       if suitable_hotels.isEmpty then
         let min_price := listMinInt (hotels.map (fun h => h.price))
         "预算¥" ++ toString budget_int ++ "/晚内没有合适的住宿，最低价格为¥" ++
           toString min_price ++ "/晚"
       else
         let sorted := pySortDescBy (fun h => h.rating) suitable_hotels
         let header := "🏨 " ++ city ++ " 住宿推荐（预算¥" ++ toString budget_int ++ "/晚，共" ++
           toString duration_int ++ "晚）：\n\n"
         let body := (List.enumFrom 1 (sorted.take 5)).foldl
           (fun a x => a ++ hotelLine duration_int x) header
         body ++ "💡 提示：以上为模拟数据，实际价格请以预订平台为准")
  | _, _ => "错误：预算或天数不是有效数字"

/-- `search_accommodation` as invoked through LangChain. -/
def search_accommodation (params : List (String × String)) : Except String String :=
  match params.lookup "city", params.lookup "budget_per_night", params.lookup "duration" with
  | some city, some budget_per_night, some duration =>
      Except.ok (accommodationBody city budget_per_night duration)
  | _, _, _ => Except.error "1 validation error for search_accommodation"

/-! ## search_transportation -/

structure TransportInfo where
  time : String
  price : Int
  frequency : String
deriving DecidableEq, Repr

def transport_data : List ((String × String) × List (String × TransportInfo)) :=
  [(("北京", "上海"),
    [("飞机", ⟨"2小时", 800, "每小时多班"⟩),
     ("高铁", ⟨"4.5小时", 550, "每30分钟一班"⟩),
     ("普通火车", ⟨"12小时", 200, "每天3班"⟩)]),
   (("上海", "北京"),
    [("飞机", ⟨"2.5小时", 850, "每小时多班"⟩),
     ("高铁", ⟨"4.5小时", 550, "每30分钟一班"⟩)]),
   (("北京", "成都"),
    [("飞机", ⟨"3小时", 900, "每天10+班"⟩),
     ("高铁", ⟨"8小时", 650, "每天6班"⟩)]),
   (("成都", "北京"),
    [("飞机", ⟨"3小时", 950, "每天10+班"⟩),
     ("高铁", ⟨"8小时", 650, "每天6班"⟩)])]

/-- One `result +=` block of the transport loop. -/
def transportLine (p : String × TransportInfo) : String :=
  "【" ++ p.1 ++ "】\n" ++
    "  用时：" ++ p.2.time ++ "\n" ++
    "  价格：¥" ++ toString p.2.price ++ "\n" ++
    "  班次：" ++ p.2.frequency ++ "\n\n"

/-- The body of `search_transportation` after argument binding. -/
def transportationBody (departure destination travel_date : String) : String :=
  match transport_data.lookup (departure, destination) with
  | none => "抱歉，暂无" ++ departure ++ "到" ++ destination ++ "的交通数据"
  | some options =>
    let header := "🚄 " ++ departure ++ " → " ++ destination ++ " 交通方式（" ++
      travel_date ++ "）：\n\n"
    let body := options.foldl (fun a x => a ++ transportLine x) header
    body ++ "💡 提示：以上为模拟数据，实际请查询官方平台"

/-- `search_transportation` as invoked through LangChain. -/
def search_transportation (params : List (String × String)) : Except String String :=
  match params.lookup "departure", params.lookup "destination", params.lookup "travel_date" with
  | some departure, some destination, some travel_date =>
      Except.ok (transportationBody departure destination travel_date)
  | _, _, _ => Except.error "1 validation error for search_transportation"

/-! ## calculate_budget_breakdown -/

/-- The body of `calculate_budget_breakdown` after argument binding.
A zero total budget raises `ZeroDivisionError` at the first percentage,
hence the `Except.error "division by zero"` guard before any text that
follows the division is assembled. -/
def budgetBody (total_budget transportation_cost accommodation_cost attraction_cost : String) :
    Except String String :=
  match pyInt? total_budget, pyInt? transportation_cost,
        pyInt? accommodation_cost, pyInt? attraction_cost with
  | some total, some transport, some hotel, some attractions =>
    if total = 0 then Except.error "division by zero"
    else
      let used_budget := transport + hotel + attractions
      let remaining := total - used_budget
      let food_suggestion : ℚ := (remaining : ℚ) * (6 / 10)
      let shopping_suggestion : ℚ := (remaining : ℚ) * (4 / 10)
      let pct := fun (x : Int) => fmtQ1 ((x : ℚ) / (total : ℚ) * 100)
      let header := "💰 预算分解分析（总预算¥" ++ toString total ++ "）：\n\n"
      let main := header ++ "【已规划费用】\n" ++
        ("  🚄 交通费用：¥" ++ toString transport ++ " (" ++ pct transport ++ "%)\n") ++
        ("  🏨 住宿费用：¥" ++ toString hotel ++ " (" ++ pct hotel ++ "%)\n") ++
        ("  🎯 景点门票：¥" ++ toString attractions ++ " (" ++ pct attractions ++ "%)\n") ++
        ("  小计：¥" ++ toString used_budget ++ " (" ++ pct used_budget ++ "%)\n\n")
      let tail :=
        if 0 < remaining then
          ("【剩余预算】¥" ++ toString remaining ++ " (" ++ pct remaining ++ "%)\n") ++
            "  建议分配：\n" ++
            ("  🍽️  餐饮费用：¥" ++ fmtQ0 food_suggestion ++ "\n") ++
            ("  🛍️  购物娱乐：¥" ++ fmtQ0 shopping_suggestion ++ "\n\n") ++
            "✅ 预算充足，可以享受舒适的旅行！"
        else if remaining = 0 then
          "⚠️ 预算刚好用完，建议预留一些应急资金"
        else
          "❌ 预算超支¥" ++ toString remaining.natAbs ++ "，建议调整行程或增加预算"
      Except.ok (main ++ tail)
  | _, _, _, _ => Except.ok "错误：预算数据不是有效数字"

/-- `calculate_budget_breakdown` as invoked through LangChain. -/
def calculate_budget_breakdown (params : List (String × String)) : Except String String :=
  match params.lookup "total_budget", params.lookup "transportation_cost",
        params.lookup "accommodation_cost", params.lookup "attraction_cost" with
  | some tb, some tc, some ac, some atc => budgetBody tb tc ac atc
  | _, _, _, _ => Except.error "1 validation error for calculate_budget_breakdown"

/-! ## The executor (`TravelExecutor`) -/

/-- `get_available_tools()` paired with each tool's registered name. -/
def availableTools (dstr : Nat → String) : List (String × ToolFn) :=
  [("get_weather_forecast", get_weather_forecast dstr),
   ("search_attractions_by_preference", search_attractions_by_preference),
   ("search_accommodation", search_accommodation),
   ("search_transportation", search_transportation),
   ("calculate_budget_breakdown", calculate_budget_breakdown)]

/-- `TravelExecutor.execute_step`: unknown tool names and raised
exceptions become failed `StepResult`s; a returned string (even a
domain-error message) is a successful one. -/
def executeStep (dstr : Nat → String) (step : TravelStep) : StepResult :=
  match (buildTools (availableTools dstr)).lookup step.tool_name with
  | none =>
      { step_name := step.step_name, tool_name := step.tool_name, success := false,
        result := "", error_message := some ("未知工具: " ++ step.tool_name) }
  | some tool_func =>
      match tool_func step.parameters with
      | Except.ok result =>
          { step_name := step.step_name, tool_name := step.tool_name, success := true,
            result := result, error_message := none }
      | Except.error e =>
          { step_name := step.step_name, tool_name := step.tool_name, success := false,
            result := "", error_message := some e }

/-- `TravelExecutor.execute_plan`: run every step in order, collect the
results and the success count, then aggregate the report. -/
def executePlan (dstr : Nat → String) (plan : TravelPlan) : ExecutionReport :=
  let st := plan.steps.foldl
    (fun acc step =>
      let step_result := executeStep dstr step
      (acc.1 ++ [step_result], if step_result.success then acc.2 + 1 else acc.2))
    (([] : List StepResult), (0 : Nat))
  let total_count := plan.steps.length
  let success_rate : ℚ := if 0 < total_count then (st.2 : ℚ) / (total_count : ℚ) else 0
  { plan := plan, results := st.1, success_count := st.2,
    total_count := total_count, success_rate := success_rate }

/-! ## The planner (`TravelPlanner`) -/

/-- `_create_default_plan` (its `user_input` argument is ignored by the
source, `# noqa: ARG002`). -/
def _create_default_plan (_user_input : String) : TravelPlan :=
  { destination := "北京", duration := 3, budget := 5000, preferences := ["历史文化"],
    steps :=
      [{ step_name := "获取天气信息", tool_name := "get_weather_forecast",
         parameters := [("city", "北京"), ("days", "3")],
         description := "查询目的地天气情况" },
       { step_name := "搜索景点", tool_name := "search_attractions_by_preference",
         parameters := [("city", "北京"), ("preferences", "历史文化"), ("duration", "3")],
         description := "根据偏好推荐景点" },
       { step_name := "查找住宿", tool_name := "search_accommodation",
         parameters := [("city", "北京"), ("budget_per_night", "300"), ("duration", "2")],
         description := "搜索合适的住宿" }] }

/-- `TravelPlanner.create_plan`: the LLM-chain invocation is the external
collaborator, abstracted as its outcome `generated` (`Except.error` is
any exception raised while producing or parsing the plan). The source
catches every exception and returns the default plan itself. -/
def create_plan (generated : Except String TravelPlan) (user_input : String) : TravelPlan :=
  match generated with
  | Except.ok plan => plan
  | Except.error _ => _create_default_plan user_input

/-! ## Concrete instances used by witnesses and counterexamples -/

/-- A concrete date renderer (the dates never matter to any claim). -/
def d0 : Nat → String := fun _ => ""

/-- A plan with zero steps (the empty-plan scenario of the spec). -/
def planEmptySteps : TravelPlan :=
  { destination := "北京", duration := 3, budget := 5000, preferences := ["历史文化"], steps := [] }

/-- A step feeding the non-numeric string "abc" into the integer-like
`days` parameter of `get_weather_forecast`. -/
def wdStepAbc : TravelStep :=
  { step_name := "获取天气信息", tool_name := "get_weather_forecast",
    parameters := [("city", "北京"), ("days", "abc")], description := "查询天气" }

/-- A step asking the weather tool about a city absent from its data. -/
def wdStepMars : TravelStep :=
  { step_name := "获取天气信息", tool_name := "get_weather_forecast",
    parameters := [("city", "火星"), ("days", "3")], description := "查询天气" }

/-- One-step plan around `wdStepAbc`. -/
def c6plan : TravelPlan :=
  { destination := "北京", duration := 3, budget := 5000, preferences := ["历史文化"],
    steps := [{ step_name := "获取天气信息", tool_name := "get_weather_forecast",
                parameters := [("city", "北京"), ("days", "abc")], description := "" }] }

/-- One-step plan around `wdStepAbc` (counting instance). -/
def c9plan : TravelPlan :=
  { destination := "北京", duration := 3, budget := 5000, preferences := ["历史文化"],
    steps := [wdStepAbc] }

/-! ## Helper lemmas -/

/-- The dict comprehension over the five distinct tool names is the
five-entry association list itself. -/
theorem buildTools_avail (d : Nat → String) : buildTools (availableTools d) = availableTools d := rfl

/-- An association-list lookup hit is a member. -/
theorem mem_of_lookup {α : Type _} : ∀ (m : List (String × α)) (n : String) (f : α),
    m.lookup n = some f → (n, f) ∈ m := by
  intro m
  induction m with
  | nil => intro n f h; simp [List.lookup] at h
  | cons p ps ih =>
    intro n f h
    rw [List.lookup] at h
    by_cases hk : n == p.1
    · simp [hk] at h
      have hn : n = p.1 := by simpa using hk
      have hp : (n, f) = p := by cases p; simp_all
      rw [hp]
      exact List.mem_cons_self _ _
    · simp [hk] at h
      exact List.mem_cons_of_mem _ (ih n f h)

/-- Characterisation of the `execute_plan` loop: the accumulated results
are the per-step results in order, and the accumulated counter adds the
number of successful steps. -/
theorem execFold (d : Nat → String) :
    ∀ (steps : List TravelStep) (acc : List StepResult) (n : Nat),
      steps.foldl
        (fun acc step =>
          let step_result := executeStep d step
          (acc.1 ++ [step_result], if step_result.success then acc.2 + 1 else acc.2))
        (acc, n)
      = (acc ++ steps.map (executeStep d),
         n + (steps.map (executeStep d)).countP (fun r => r.success)) := by
  intro steps
  induction steps with
  | nil => intro acc n; simp
  | cons s ss ih =>
    intro acc n
    rw [List.foldl_cons, ih]
    cases hb : (executeStep d s).success with
    | false => simp [hb, List.countP_cons, List.append_assoc]
    | true =>
      simp [hb, List.countP_cons, List.append_assoc]
      omega

/-- `execute_plan` records exactly one result per step, in plan order. -/
theorem executePlan_results (d : Nat → String) (p : TravelPlan) :
    (executePlan d p).results = p.steps.map (executeStep d) := by
  unfold executePlan
  rw [execFold]
  simp

/-- `execute_plan`'s counter counts the successful per-step results. -/
theorem executePlan_success_count (d : Nat → String) (p : TravelPlan) :
    (executePlan d p).success_count
      = (p.steps.map (executeStep d)).countP (fun r => r.success) := by
  unfold executePlan
  rw [execFold]
  simp

/-- `execute_step` copies the step name into the result in every branch. -/
theorem executeStep_step_name (d : Nat → String) (s : TravelStep) :
    (executeStep d s).step_name = s.step_name := by
  unfold executeStep
  split
  · rfl
  · split <;> rfl

/-- `execute_step` copies the tool name into the result in every branch. -/
theorem executeStep_tool_name (d : Nat → String) (s : TravelStep) :
    (executeStep d s).tool_name = s.tool_name := by
  unfold executeStep
  split
  · rfl
  · split <;> rfl

/-- A string with a non-empty left part is non-empty. -/
theorem append_ne_empty_left (a b : String) (h : a ≠ "") : a ++ b ≠ "" := by
  cases a with
  | mk la =>
    cases b with
    | mk lb =>
      intro hab
      apply h
      have hd : la ++ lb = [] := congrArg String.data hab
      have : la = [] := (List.append_eq_nil.mp hd).1
      simp [this]

/-- Appending line chunks to a non-empty accumulator keeps it non-empty. -/
theorem foldl_append_ne {α : Type _} (g : α → String) :
    ∀ (l : List α) (acc : String), acc ≠ "" →
      (l.foldl (fun a x => a ++ g x) acc) ≠ "" := by
  intro l
  induction l with
  | nil => intro acc h; simpa using h
  | cons x xs ih =>
    intro acc h
    simpa using ih (acc ++ g x) (append_ne_empty_left _ _ h)

/-- Same as `foldl_append_ne` with a numeric accumulator alongside. -/
theorem foldl_pair_append_ne {α : Type _} (g : α → String) (c : α → Int) :
    ∀ (l : List α) (st : String × Int), st.1 ≠ "" →
      (l.foldl (fun s x => (s.1 ++ g x, s.2 + c x)) st).1 ≠ "" := by
  intro l
  induction l with
  | nil => intro st h; simpa using h
  | cons x xs ih =>
    intro st h
    simpa using ih (st.1 ++ g x, st.2 + c x) (append_ne_empty_left _ _ h)

/-- Every string `get_weather_forecast`'s body returns is non-empty. -/
theorem weatherBody_ne (d : Nat → String) (city days : String) :
    weatherBody d city days ≠ "" := by
  unfold weatherBody
  split
  · repeat apply append_ne_empty_left
    decide
  · split
    · repeat apply append_ne_empty_left
      decide
    · apply append_ne_empty_left
      apply foldl_append_ne
      repeat apply append_ne_empty_left
      decide

/-- Every string `search_attractions_by_preference`'s body returns is
non-empty. -/
theorem attractionsBody_ne (city preferences duration : String) :
    attractionsBody city preferences duration ≠ "" := by
  unfold attractionsBody
  split
  · repeat apply append_ne_empty_left
    decide
  · split
    · repeat apply append_ne_empty_left
      decide
    · dsimp only
      split
      · repeat apply append_ne_empty_left
        decide
      · apply append_ne_empty_left
        apply append_ne_empty_left
        apply foldl_pair_append_ne
        repeat apply append_ne_empty_left
        decide

/-- Every string `search_accommodation`'s body returns is non-empty. -/
theorem accommodationBody_ne (city budget_per_night duration : String) :
    accommodationBody city budget_per_night duration ≠ "" := by
  unfold accommodationBody
  split
  · split
    · repeat apply append_ne_empty_left
      decide
    · dsimp only
      split
      · repeat apply append_ne_empty_left
        decide
      · apply append_ne_empty_left
        apply foldl_append_ne
        repeat apply append_ne_empty_left
        decide
  · decide

/-- Every string `search_transportation`'s body returns is non-empty. -/
theorem transportationBody_ne (departure destination travel_date : String) :
    transportationBody departure destination travel_date ≠ "" := by
  unfold transportationBody
  split
  · repeat apply append_ne_empty_left
    decide
  · apply append_ne_empty_left
    apply foldl_append_ne
    repeat apply append_ne_empty_left
    decide

/-- Every string `calculate_budget_breakdown`'s body returns is
non-empty. -/
theorem budgetBody_ok_ne (tb tc ac atc r : String)
    (h : budgetBody tb tc ac atc = Except.ok r) : r ≠ "" := by
  unfold budgetBody at h
  split at h
  · split at h
    · exact absurd h (by simp)
    · rw [Except.ok.injEq] at h
      subst h
      apply append_ne_empty_left
      repeat apply append_ne_empty_left
      decide
  · rw [Except.ok.injEq] at h
    subst h
    decide

/-- Every registered tool only returns non-empty payload strings. -/
theorem tools_ok_ne (d : Nat → String) (n : String) (f : ToolFn)
    (hmem : (n, f) ∈ availableTools d) (ps : List (String × String)) (r : String)
    (hf : f ps = Except.ok r) : r ≠ "" := by
  simp only [availableTools, List.mem_cons, List.mem_singleton, Prod.mk.injEq,
    List.not_mem_nil, or_false] at hmem
  rcases hmem with ⟨-, rfl⟩ | ⟨-, rfl⟩ | ⟨-, rfl⟩ | ⟨-, rfl⟩ | ⟨-, rfl⟩
  · unfold get_weather_forecast at hf
    split at hf
    · rw [Except.ok.injEq] at hf
      subst hf
      apply weatherBody_ne
    · exact absurd hf (by simp)
  · unfold search_attractions_by_preference at hf
    split at hf
    · rw [Except.ok.injEq] at hf
      subst hf
      apply attractionsBody_ne
    · exact absurd hf (by simp)
  · unfold search_accommodation at hf
    split at hf
    · rw [Except.ok.injEq] at hf
      subst hf
      apply accommodationBody_ne
    · exact absurd hf (by simp)
  · unfold search_transportation at hf
    split at hf
    · rw [Except.ok.injEq] at hf
      subst hf
      apply transportationBody_ne
    · exact absurd hf (by simp)
  · unfold calculate_budget_breakdown at hf
    split at hf
    · exact budgetBody_ok_ne _ _ _ _ _ hf
    · exact absurd hf (by simp)

/-- Appending a fresh key at the end of an association list makes it
found by lookup. -/
theorem lookup_append_singleton {α : Type _} (k : String) (v : α) :
    ∀ (m : List (String × α)), m.lookup k = none → (m ++ [(k, v)]).lookup k = some v := by
  intro m
  induction m with
  | nil => intro _; simp [List.lookup]
  | cons p ps ih =>
    intro h
    rw [List.cons_append]
    by_cases hk : k == p.1
    · simp [List.lookup, hk] at h
    · simp only [List.lookup, hk] at h ⊢
      exact ih h

/-- Replacing the stored value of a present key makes lookup return the
new value. -/
theorem lookup_map_overwrite {α : Type _} (k : String) (v : α) :
    ∀ (m : List (String × α)) (w : α), m.lookup k = some w →
      ((m.map (fun p => if p.1 = k then (k, v) else p)).lookup k) = some v := by
  intro m
  induction m with
  | nil => intro w h; simp [List.lookup] at h
  | cons p ps ih =>
    intro w h
    by_cases hk : k == p.1
    · have hp1 : p.1 = k := (eq_of_beq hk).symm
      simp only [List.map_cons, if_pos hp1]
      simp [List.lookup]
    · have hne : ¬ p.1 = k := fun he => hk (by simp [he])
      simp only [List.lookup, hk] at h
      simp only [List.map_cons, if_neg hne]
      simp only [List.lookup, hk]
      exact ih w h

/-- After a dict insert the key maps to the inserted value. -/
theorem lookup_dictInsert_self {α : Type _} (m : List (String × α)) (k : String) (v : α) :
    (dictInsert m k v).lookup k = some v := by
  unfold dictInsert
  split
  · rename_i w hm
    exact lookup_map_overwrite k v m w hm
  · rename_i hm
    exact lookup_append_singleton k v m hm

/-- Binding `get_weather_forecast`'s two declared arguments succeeds and
runs the body. -/
theorem gwf_apply (d : Nat → String) (city days : String) :
    get_weather_forecast d [("city", city), ("days", days)]
      = Except.ok (weatherBody d city days) := rfl

/-- The success counter never exceeds the total counter. -/
theorem success_count_le_total (d : Nat → String) (p : TravelPlan) :
    (executePlan d p).success_count ≤ (executePlan d p).total_count := by
  rw [executePlan_success_count]
  calc ((p.steps.map (executeStep d)).countP (fun r => r.success))
      ≤ (p.steps.map (executeStep d)).length := List.countP_le_length _
    _ = (executePlan d p).total_count := by simp [executePlan]

/-! ## Claim theorems -/

/-- C1: for every plan with N steps, `execute_plan` returns an
`ExecutionReport` whose `total_count` equals N, whose `results` list has
the same length and order as `plan.steps`, and whose i-th result copies
`step_name` and `tool_name` from the i-th step. -/
theorem execute_plan_report_shape (d : Nat → String) (plan : TravelPlan) :
    (executePlan d plan).total_count = plan.steps.length
  ∧ (executePlan d plan).results.length = plan.steps.length
  ∧ (executePlan d plan).results.map (fun r => r.step_name)
      = plan.steps.map (fun s => s.step_name)
  ∧ (executePlan d plan).results.map (fun r => r.tool_name)
      = plan.steps.map (fun s => s.tool_name) := by
  refine ⟨rfl, ?_, ?_, ?_⟩ <;> rw [executePlan_results]
  · simp
  · rw [List.map_map]
    have hc : ((fun r : StepResult => r.step_name) ∘ executeStep d)
        = fun s : TravelStep => s.step_name := funext (executeStep_step_name d)
    rw [hc]
  · rw [List.map_map]
    have hc : ((fun r : StepResult => r.tool_name) ∘ executeStep d)
        = fun s : TravelStep => s.tool_name := funext (executeStep_tool_name d)
    rw [hc]

/-- C2: `success_count` counts the successful results; `success_rate` is
`success_count / total_count` when `total_count > 0` and `0` otherwise
(never a division error in this total model), it always lies in `[0, 1]`,
and a plan with zero steps yields `total_count = 0`, `success_count = 0`
and `success_rate = 0`. -/
theorem execute_plan_success_stats (d : Nat → String) (plan : TravelPlan) :
    (executePlan d plan).success_count
        = (executePlan d plan).results.countP (fun r => r.success)
  ∧ (executePlan d plan).success_rate
      = (if 0 < (executePlan d plan).total_count
          then ((executePlan d plan).success_count : ℚ) / ((executePlan d plan).total_count : ℚ)
          else 0)
  ∧ 0 ≤ (executePlan d plan).success_rate
  ∧ (executePlan d plan).success_rate ≤ 1
  ∧ (plan.steps = [] →
      (executePlan d plan).total_count = 0 ∧ (executePlan d plan).success_count = 0
        ∧ (executePlan d plan).success_rate = 0) := by
  have hsc := executePlan_success_count d plan
  have hr : (executePlan d plan).success_rate
      = (if 0 < (executePlan d plan).total_count
          then ((executePlan d plan).success_count : ℚ) / ((executePlan d plan).total_count : ℚ)
          else 0) := rfl
  refine ⟨?_, hr, ?_, ?_, ?_⟩
  · rw [hsc, executePlan_results]
  · rw [hr]
    split
    · positivity
    · exact le_refl 0
  · rw [hr]
    split
    · rename_i hpos
      rw [div_le_one (by exact_mod_cast hpos)]
      exact_mod_cast success_count_le_total d plan
    · exact zero_le_one
  · intro h
    refine ⟨by simp [executePlan, h], by simp [executePlan, h], ?_⟩
    rw [hr]
    simp [executePlan, h]

/-- Witness for C2: the zero-step plan evaluates to the claimed report. -/
theorem execute_plan_success_stats_witness :
    ((executePlan d0 planEmptySteps).total_count = 0
      ∧ (executePlan d0 planEmptySteps).success_count = 0
      ∧ (executePlan d0 planEmptySteps).success_rate = 0)
  ∧ 0 ≤ (executePlan d0 planEmptySteps).success_rate := by
  have h := execute_plan_success_stats d0 planEmptySteps
  exact ⟨h.2.2.2.2 rfl, h.2.2.1⟩

/-- C3: a failing step never prevents later steps from running — each
result is computed from its own step alone, there is one result per step
in plan order, and executing a plan split at any point equals executing
the two halves independently (so earlier failures cannot abort the
tail). `executeStep` is a total function: no step-level failure escapes
`execute_plan` as an exception. -/
theorem execute_plan_isolates_failures (d : Nat → String) (plan : TravelPlan) :
    (executePlan d plan).results = plan.steps.map (executeStep d)
  ∧ (executePlan d plan).results.length = plan.steps.length
  ∧ ∀ pre post : List TravelStep,
      (executePlan d { plan with steps := pre ++ post }).results
        = (executePlan d { plan with steps := pre }).results
          ++ (executePlan d { plan with steps := post }).results := by
  refine ⟨executePlan_results d plan, by rw [executePlan_results]; simp, ?_⟩
  intro pre post
  simp [executePlan_results]

/-- C4: a step naming a tool absent from the registry yields (without
throwing) a failed `StepResult` whose error message names the unknown
tool (`未知工具: <name>`). -/
theorem execute_step_unknown_tool (d : Nat → String) (step : TravelStep)
    (h : (buildTools (availableTools d)).lookup step.tool_name = none) :
    executeStep d step
      = { step_name := step.step_name, tool_name := step.tool_name, success := false,
          result := "", error_message := some ("未知工具: " ++ step.tool_name) } := by
  unfold executeStep
  rw [h]

/-- Witness for C4 at the unregistered tool name `doesNotExist`. -/
theorem execute_step_unknown_tool_witness :
    executeStep d0
        { step_name := "测试", tool_name := "doesNotExist", parameters := [], description := "" }
      = { step_name := "测试", tool_name := "doesNotExist", success := false, result := "",
          error_message := some ("未知工具: " ++ "doesNotExist") } :=
  execute_step_unknown_tool d0 _ rfl

/-- Counterexample to C5: registering a second tool under the name
`weather` raises no error and does not keep the first descriptor — the
registry built by the source's dict comprehension answers with the
second tool's behaviour. -/
theorem duplicate_registration_counterexample :
    (((buildTools ([("weather", fun _ => Except.ok "first"),
          ("weather", fun _ => Except.ok "second")] : List (String × ToolFn))).lookup
        "weather").map (fun f => f [])) = some (Except.ok "second") := rfl

/-- C5 as amended: registration under an existing name silently
overwrites — after registering a tool last, lookup of its name returns
that most recent descriptor (never an error and never the first one). -/
theorem duplicate_registration_overwrites (ts : List (String × ToolFn)) (t : String × ToolFn) :
    (buildTools (ts ++ [t])).lookup t.1 = some t.2 := by
  unfold buildTools
  rw [List.foldl_append]
  simp only [List.foldl_cons, List.foldl_nil]
  exact lookup_dictInsert_self _ _ _

/-- Counterexample to C6: the plan whose step feeds the non-numeric
`days` value "abc" to `get_weather_forecast` is not rejected by any
validation — the Executor runs it, the tool is invoked, and the step is
even recorded as successful, carrying the tool's error-message string. -/
theorem missing_validation_counterexample :
    (executePlan d0 c6plan).results.map (fun r => (r.success, r.result, r.error_message))
        = [(true, "错误：天数\x27abc\x27不是有效数字", none)]
  ∧ (executePlan d0 c6plan).success_count = 1 := by
  constructor
  · rfl
  · rfl

/-- C6 as amended: no validation precedes execution — a step whose
`days` parameter is not numeric is still executed; `get_weather_forecast`
returns its error-message string and `execute_step` records a successful
`StepResult` carrying it. -/
theorem executor_runs_unvalidated_step (d : Nat → String) (nm desc city days : String)
    (h : pyInt? days = none) :
    executeStep d
        { step_name := nm, tool_name := "get_weather_forecast",
          parameters := [("city", city), ("days", days)], description := desc }
      = { step_name := nm, tool_name := "get_weather_forecast", success := true,
          result := "错误：天数\x27" ++ days ++ "\x27不是有效数字", error_message := none } := by
  have hw : weatherBody d city days = "错误：天数\x27" ++ days ++ "\x27不是有效数字" := by
    unfold weatherBody
    rw [h]
  calc executeStep d
        { step_name := nm, tool_name := "get_weather_forecast",
          parameters := [("city", city), ("days", days)], description := desc }
      = { step_name := nm, tool_name := "get_weather_forecast", success := true,
          result := weatherBody d city days, error_message := none } := rfl
    _ = { step_name := nm, tool_name := "get_weather_forecast", success := true,
          result := "错误：天数\x27" ++ days ++ "\x27不是有效数字", error_message := none } := by
        rw [hw]

/-- Witness for the amended C6 at `days = "abc"`. -/
theorem executor_runs_unvalidated_step_witness :
    executeStep d0
        { step_name := "获取天气信息", tool_name := "get_weather_forecast",
          parameters := [("city", "北京"), ("days", "abc")], description := "" }
      = { step_name := "获取天气信息", tool_name := "get_weather_forecast", success := true,
          result := "错误：天数\x27" ++ "abc" ++ "\x27不是有效数字", error_message := none } :=
  executor_runs_unvalidated_step d0 "获取天气信息" "" "北京" "abc" rfl

/-- Counterexample to C7: on a malformed generator outcome, `create_plan`
does not return any error value — it returns a `TravelPlan`, namely the
default plan, so no fallback decision is left to an engine. -/
theorem plan_error_fallback_counterexample :
    create_plan (Except.error "Invalid json output") "我想去北京旅游3天"
        = _create_default_plan "我想去北京旅游3天"
  ∧ (_create_default_plan "我想去北京旅游3天").destination = "北京"
  ∧ (_create_default_plan "我想去北京旅游3天").steps.length = 3 :=
  ⟨rfl, rfl, rfl⟩

/-- C7 as amended: on any plan-generation failure, `create_plan` itself
falls back to the fixed default plan (independent of the user input) and
returns it; it has no error channel, so no `PlanGenerationError` reaches
any caller and no configurable fallback exists outside the planner. -/
theorem create_plan_fallback_is_internal (e user_input : String) :
    create_plan (Except.error e) user_input = _create_default_plan user_input
  ∧ _create_default_plan user_input = _create_default_plan "" :=
  ⟨rfl, rfl⟩

/-- C8: every `StepResult` the executor produces carries a non-empty
payload exactly when it is successful, and carries an error message
(`error_message.isSome`) exactly when it is not. -/
theorem step_result_payload_invariant (d : Nat → String) (step : TravelStep) :
    ((executeStep d step).success = true ↔ (executeStep d step).result ≠ "")
  ∧ ((executeStep d step).success = false ↔ (executeStep d step).error_message.isSome = true) := by
  cases hl : (buildTools (availableTools d)).lookup step.tool_name with
  | none =>
    have he : executeStep d step
        = { step_name := step.step_name, tool_name := step.tool_name, success := false,
            result := "", error_message := some ("未知工具: " ++ step.tool_name) } := by
      unfold executeStep
      rw [hl]
    rw [he]
    simp
  | some f =>
    cases hf : f step.parameters with
    | ok r =>
      have he : executeStep d step
          = { step_name := step.step_name, tool_name := step.tool_name, success := true,
              result := r, error_message := none } := by
        unfold executeStep
        rw [hl]
        dsimp only
        rw [hf]
      rw [he]
      have hr : r ≠ "" := by
        refine tools_ok_ne d step.tool_name f ?_ step.parameters r hf
        exact mem_of_lookup _ _ _ ((buildTools_avail d) ▸ hl)
      simp [hr]
    | error e =>
      have he : executeStep d step
          = { step_name := step.step_name, tool_name := step.tool_name, success := false,
              result := "", error_message := some e } := by
        unfold executeStep
        rw [hl]
        dsimp only
        rw [hf]
      rw [he]
      simp

/-- C9: a step fails exactly when its tool is unknown or the tool raised
an exception; a tool that merely returns an error-message string (the
non-numeric `days` "abc", or the unknown city 火星) is recorded as a
successful `StepResult` carrying that message, and it is counted in
`success_count`. -/
theorem tool_error_strings_count_as_success (d : Nat → String) :
    (∀ step : TravelStep,
      (executeStep d step).success = false ↔
        ((buildTools (availableTools d)).lookup step.tool_name = none ∨
          ∃ f e, (buildTools (availableTools d)).lookup step.tool_name = some f
            ∧ f step.parameters = Except.error e))
  ∧ (executeStep d wdStepAbc).success = true
  ∧ (executeStep d wdStepAbc).result = "错误：天数\x27abc\x27不是有效数字"
  ∧ (executeStep d wdStepMars).success = true
  ∧ (executeStep d wdStepMars).result
      = "抱歉，暂无火星的天气数据。支持城市：北京, 上海, 成都, 广州, 杭州, 深圳"
  ∧ (executePlan d c9plan).success_count = 1 := by
  refine ⟨?_, rfl, ?_, rfl, ?_, rfl⟩
  · intro step
    cases hl : (buildTools (availableTools d)).lookup step.tool_name with
    | none =>
      have he : executeStep d step
          = { step_name := step.step_name, tool_name := step.tool_name, success := false,
              result := "", error_message := some ("未知工具: " ++ step.tool_name) } := by
        unfold executeStep
        rw [hl]
      rw [he]
      simp
    | some f =>
      cases hf : f step.parameters with
      | ok r =>
        have he : executeStep d step
            = { step_name := step.step_name, tool_name := step.tool_name, success := true,
                result := r, error_message := none } := by
          unfold executeStep
          rw [hl]
          dsimp only
          rw [hf]
        rw [he]
        simp [hf]
      | error e =>
        have he : executeStep d step
            = { step_name := step.step_name, tool_name := step.tool_name, success := false,
                result := "", error_message := some e } := by
          unfold executeStep
          rw [hl]
          dsimp only
          rw [hf]
        rw [he]
        simp [hf]
  · rfl
  · rfl

/-- C10: every plan-creation failure falls back to one fixed default
plan, independent of the user input — destination 北京, duration 3,
budget 5000, preferences [历史文化], and exactly the three steps
`get_weather_forecast`, `search_attractions_by_preference`,
`search_accommodation` in that order. -/
theorem default_plan_contents (user_input e : String) :
    create_plan (Except.error e) user_input
      = { destination := "北京", duration := 3, budget := 5000, preferences := ["历史文化"],
          steps :=
            [{ step_name := "获取天气信息", tool_name := "get_weather_forecast",
               parameters := [("city", "北京"), ("days", "3")],
               description := "查询目的地天气情况" },
             { step_name := "搜索景点", tool_name := "search_attractions_by_preference",
               parameters := [("city", "北京"), ("preferences", "历史文化"), ("duration", "3")],
               description := "根据偏好推荐景点" },
             { step_name := "查找住宿", tool_name := "search_accommodation",
               parameters := [("city", "北京"), ("budget_per_night", "300"), ("duration", "2")],
               description := "搜索合适的住宿" }] } := rfl
